import Mathlib

/-!
Verification of the travel-tracker eligibility calculator (`getStats` and its
helpers in the stats module).

Modelling conventions (shallow embedding of the TypeScript source):

* A JS `Date` value is its timestamp: milliseconds since the Unix epoch, an `Int`.
* Trip dates are stored as ISO `"YYYY-MM-DD"` strings; `new Date("YYYY-MM-DD")`
  is UTC midnight of that calendar day, i.e. `dayNumber * msPerDay` where
  `dayNumber` is the number of civil days since 1970-01-01.  Calendar dates are
  modelled by the `CalDate` structure and mapped to day numbers by
  `daysFromCivil` (the standard civil-calendar day-count algorithm, which is
  what the ECMAScript date model computes).
* `date.toISOString().split("T")[0]` truncates a timestamp to its calendar day:
  modelled by `tsToDay`, flooring division of the timestamp by `msPerDay`.
* Lexicographic comparison of two `"YYYY-MM-DD"` strings (used by the source as
  `tripStartStr > today`) agrees with chronological comparison of their day
  numbers, so it is modelled as `Int` comparison of day numbers.
* `Math.ceil(x / d)` on an integer-valued `x` and positive integer `d` is the
  integer ceiling `ceilDiv x d`.  The source only ever divides timestamp
  differences (exact integers) by `msPerDay`, and IEEE doubles represent these
  exactly at realistic magnitudes, so exact integer arithmetic is faithful.
* JS number arithmetic on the percentage fields is modelled over `ℚ`; the
  clamping/threshold properties proved about them are reproduced verbatim from
  the source expressions.
* The runtime is assumed to be in the UTC timezone (`getFullYear`/`setFullYear`
  act on the UTC calendar day), the usual server configuration.
-/

namespace TravelTracker

/-- Milliseconds per day: `1000 * 60 * 60 * 24`. -/
def msPerDay : Int := 1000 * 60 * 60 * 24

/-- `const FIVE_YEARS_MS = 5 * 365 * 24 * 60 * 60 * 1000;` -/
def FIVE_YEARS_MS : Int := 5 * 365 * 24 * 60 * 60 * 1000

/-- `const MAX_DAYS_ALLOWED = 913;` -/
def MAX_DAYS_ALLOWED : Int := 913

/-- A calendar date (year, month 1–12, day-of-month), the content of a
`"YYYY-MM-DD"` string. -/
structure CalDate where
  year : Int
  month : Int
  day : Int
deriving DecidableEq, Repr

/-- Gregorian leap-year test. -/
def isLeap (y : Int) : Bool :=
  (y % 4 == 0 && y % 100 != 0) || y % 400 == 0

/-- Number of days in a month of a given year. -/
def daysInMonth (y m : Int) : Int :=
  if m = 2 then (if isLeap y then 29 else 28)
  else if m = 4 ∨ m = 6 ∨ m = 9 ∨ m = 11 then 30
  else 31

/-- Civil days since 1970-01-01 of a calendar date (the day count underlying
the ECMAScript date model; standard civil-from-date algorithm). -/
def daysFromCivil (dt : CalDate) : Int :=
  let y := if dt.month ≤ 2 then dt.year - 1 else dt.year
  let era := y.fdiv 400
  let yoe := y - era * 400
  let mp := if dt.month > 2 then dt.month - 3 else dt.month + 9
  let doy := (153 * mp + 2).fdiv 5 + dt.day - 1
  let doe := yoe * 365 + yoe.fdiv 4 - yoe.fdiv 100 + doy
  era * 146097 + doe - 719468

/-- `new Date("YYYY-MM-DD")`: UTC midnight of the calendar day, as a
timestamp in milliseconds. -/
def dateToTs (dt : CalDate) : Int := daysFromCivil dt * msPerDay

/-- `date.toISOString().split("T")[0]` viewed as a day number: the civil day
containing the timestamp. -/
def tsToDay (t : Int) : Int := t.fdiv msPerDay

/-- `Math.ceil(n / d)` for integer `n` and positive integer `d`. -/
def ceilDiv (n d : Int) : Int := (n + d - 1).fdiv d

/-- The source's `daysBetween`, applied to two timestamps that are UTC
midnights of calendar days:
`Math.ceil(Math.abs(endTs - startTs) / msPerDay) + 1`. -/
def daysBetweenTs (s e : Int) : Int :=
  ceilDiv ((e - s).natAbs : Int) msPerDay + 1

/-- `daysBetween(start, end)` of the source on two `"YYYY-MM-DD"` strings. -/
def daysBetween (start finish : CalDate) : Int :=
  daysBetweenTs (dateToTs start) (dateToTs finish)

/-- `Date.prototype.setFullYear y'` on a calendar date: the year is replaced
and the month/day-of-month are kept, a nonexistent Feb 29 spilling over into
the following month (ECMAScript `MakeDay` normalisation). -/
def setFullYear (yNew : Int) (dt : CalDate) : CalDate :=
  if dt.day ≤ daysInMonth yNew dt.month then ⟨yNew, dt.month, dt.day⟩
  else ⟨yNew, dt.month + 1, dt.day - daysInMonth yNew dt.month⟩

/-- `eligibilityDate.setFullYear(eligibilityDate.getFullYear() + 5)`:
add `n` calendar years. -/
def addYears (n : Int) (dt : CalDate) : CalDate := setFullYear (dt.year + n) dt

/-- A trip as the calculator reads it (departure and return `"YYYY-MM-DD"`
strings; destination/notes/ids are never read by `getStats`). -/
structure Trip where
  departureDate : CalDate
  returnDate : CalDate
deriving DecidableEq, Repr

/-- The three warning levels. -/
inductive WarningLevel where
  | safe
  | caution
  | danger
deriving DecidableEq, Repr

/-- The source's `getWarningLevel` closure:
`percent >= 90 → danger; percent >= 70 → caution; else safe`. -/
def getWarningLevel (percent : ℚ) : WarningLevel :=
  if percent ≥ 90 then .danger
  else if percent ≥ 70 then .caution
  else .safe

/-- The mutable accumulators of the `for (const trip of userTrips)` loop. -/
structure LoopState where
  totalDaysOutside : Int
  plannedDaysOutside : Int
  longestTrip : Int
  pastTripCount : Int
  plannedTripCount : Int
deriving DecidableEq, Repr

/-- One iteration of the trip loop in `getStats` (source lines 199–235).
`now` is the current timestamp, `periodStart` the period-start timestamp,
`today` the day number of `now`. -/
def processTrip (now periodStart today : Int) (st : LoopState) (trip : Trip) :
    LoopState :=
  let tripStart := dateToTs trip.departureDate
  let tripEnd := dateToTs trip.returnDate
  -- Skip trips before the period
  if tripEnd < periodStart then st
  else
    let fullTripDays := daysBetween trip.departureDate trip.returnDate
    -- Track longest trip
    let st :=
      { st with longestTrip :=
          if fullTripDays > st.longestTrip then fullTripDays else st.longestTrip }
    -- Is this a future trip? (starts after today; ISO-string comparison)
    if daysFromCivil trip.departureDate > today then
      { st with plannedTripCount := st.plannedTripCount + 1,
                plannedDaysOutside := st.plannedDaysOutside + fullTripDays }
    else
      let st := { st with pastTripCount := st.pastTripCount + 1 }
      -- Adjust for trips that span boundaries
      let effectiveStart := if tripStart < periodStart then periodStart else tripStart
      let effectiveEnd := if tripEnd > now then now else tripEnd
      if effectiveStart ≤ now then
        let days :=
          daysBetweenTs (tsToDay effectiveStart * msPerDay)
            (tsToDay effectiveEnd * msPerDay)
        { st with totalDaysOutside := st.totalDaysOutside + days }
      else st

/-- The `Stats` record returned by `getStats`.  Date-string fields are carried
as day numbers (`periodStart`) or calendar dates (`eligibilityDate`,
`greenCardDate`); numeric fields are `Int` except the two percentages. -/
structure Stats where
  totalDaysOutside : Int
  plannedDaysOutside : Int
  projectedTotalDays : Int
  daysRemaining : Int
  projectedDaysRemaining : Int
  percentUsed : ℚ
  projectedPercentUsed : ℚ
  longestTrip : Int
  tripCount : Int
  pastTripCount : Int
  plannedTripCount : Int
  periodStart : Int
  eligibilityDate : Option CalDate
  daysUntilEligible : Option Int
  greenCardDate : Option CalDate
  warningLevel : WarningLevel
  projectedWarningLevel : WarningLevel
deriving DecidableEq, Repr

/-- The period-start timestamp chosen by `getStats`: the green-card date if
set, otherwise `now - FIVE_YEARS_MS`. -/
def periodStartTs (now : Int) (greenCardDate : Option CalDate) : Int :=
  match greenCardDate with
  | some gcd => dateToTs gcd
  | none => now - FIVE_YEARS_MS

/-- The source's `getStats`, as a pure function of the current timestamp, the
stored green-card date, and the user's trips. -/
def getStats (now : Int) (greenCardDate : Option CalDate)
    (userTrips : List Trip) : Stats :=
  let today := tsToDay now
  let periodStart := periodStartTs now greenCardDate
  let eligibilityDate : Option CalDate :=
    match greenCardDate with
    | some gcd => some (addYears 5 gcd)
    | none => none
  let final := userTrips.foldl (processTrip now periodStart today) ⟨0, 0, 0, 0, 0⟩
  let projectedTotalDays := final.totalDaysOutside + final.plannedDaysOutside
  let daysRemaining := max 0 (MAX_DAYS_ALLOWED - final.totalDaysOutside)
  let projectedDaysRemaining := max 0 (MAX_DAYS_ALLOWED - projectedTotalDays)
  let percentUsed : ℚ :=
    min 100 ((final.totalDaysOutside : ℚ) / (MAX_DAYS_ALLOWED : ℚ) * 100)
  let projectedPercentUsed : ℚ :=
    min 100 ((projectedTotalDays : ℚ) / (MAX_DAYS_ALLOWED : ℚ) * 100)
  let daysUntilEligible : Option Int :=
    match eligibilityDate with
    | some ed =>
        let d := ceilDiv (dateToTs ed - now) msPerDay
        some (if d < 0 then 0 else d)
    | none => none
  { totalDaysOutside := final.totalDaysOutside
    plannedDaysOutside := final.plannedDaysOutside
    projectedTotalDays := projectedTotalDays
    daysRemaining := daysRemaining
    projectedDaysRemaining := projectedDaysRemaining
    percentUsed := percentUsed
    projectedPercentUsed := projectedPercentUsed
    longestTrip := final.longestTrip
    tripCount := userTrips.length
    pastTripCount := final.pastTripCount
    plannedTripCount := final.plannedTripCount
    periodStart := tsToDay periodStart
    eligibilityDate := eligibilityDate
    daysUntilEligible := daysUntilEligible
    greenCardDate := greenCardDate
    warningLevel := getWarningLevel percentUsed
    projectedWarningLevel := getWarningLevel projectedPercentUsed }

/-! ### Spec-side definitions

These follow the wording of the specification (clipping via `max`/`min`,
`inclusiveDayCount`, per-trip classification) and are proved to agree with the
loop of the source. -/

/-- The spec's `inclusiveDayCount(a, b)` on calendar days given as day
numbers: both endpoints counted, argument order irrelevant. -/
def inclusiveDayCount (a b : Int) : Int := ((b - a).natAbs : Int) + 1

/-- Spec-side: the clipped amount a past/current trip adds to
`totalDaysOutside`: `effectiveStart = max(d, periodStart)`,
`effectiveEnd = min(r, now)`; if `effectiveStart ≤ now`, the inclusive day
count of the clipped range (taken on calendar days), else nothing. -/
def clippedContribution (now periodStart : Int) (t : Trip) : Int :=
  let effectiveStart := max (dateToTs t.departureDate) periodStart
  let effectiveEnd := min (dateToTs t.returnDate) now
  if effectiveStart ≤ now then
    inclusiveDayCount (tsToDay effectiveStart) (tsToDay effectiveEnd)
  else 0

/-- Spec-side: what one trip adds to `totalDaysOutside` (zero unless it is in
the period and past/current). -/
def totalContribution (now periodStart today : Int) (t : Trip) : Int :=
  if periodStart ≤ dateToTs t.returnDate ∧ daysFromCivil t.departureDate ≤ today then
    clippedContribution now periodStart t
  else 0

/-- Spec-side: what one trip adds to `plannedDaysOutside` (its full unclipped
day count if it is in the period and departs strictly after today). -/
def plannedContribution (periodStart today : Int) (t : Trip) : Int :=
  if periodStart ≤ dateToTs t.returnDate ∧ today < daysFromCivil t.departureDate then
    daysBetween t.departureDate t.returnDate
  else 0

/-- Spec-side closed form of `totalDaysOutside`. -/
def totalDaysSpec (now periodStart today : Int) (l : List Trip) : Int :=
  (l.map (totalContribution now periodStart today)).sum

/-- Spec-side closed form of `plannedDaysOutside`. -/
def plannedDaysSpec (periodStart today : Int) (l : List Trip) : Int :=
  (l.map (plannedContribution periodStart today)).sum

/-- Spec-side closed form of `longestTrip`: the maximum full unclipped day
count over trips not entirely before the period (0 if none). -/
def longestTripSpec (periodStart : Int) (l : List Trip) : Int :=
  (l.map (fun t =>
    if periodStart ≤ dateToTs t.returnDate then
      daysBetween t.departureDate t.returnDate
    else 0)).foldr max 0

/-- Spec-side closed form of `pastTripCount`. -/
def pastCountSpec (periodStart today : Int) (l : List Trip) : Int :=
  (l.countP (fun t =>
    decide (periodStart ≤ dateToTs t.returnDate ∧
      daysFromCivil t.departureDate ≤ today)) : Int)

/-- Spec-side closed form of `plannedTripCount`. -/
def plannedCountSpec (periodStart today : Int) (l : List Trip) : Int :=
  (l.countP (fun t =>
    decide (periodStart ≤ dateToTs t.returnDate ∧
      today < daysFromCivil t.departureDate)) : Int)

/-! ### Arithmetic helper lemmas -/

theorem msPerDay_eq : msPerDay = 86400000 := by norm_num [msPerDay]

theorem msPerDay_pos : (0 : Int) < msPerDay := by rw [msPerDay_eq]; norm_num

theorem ite_lt_eq_max (a b : Int) : (if a < b then b else a) = max a b := by
  rcases max_cases a b with ⟨h1, h2⟩ | ⟨h1, h2⟩ <;> rw [h1] <;> split <;> omega

theorem ite_lt_eq_min (a n : Int) : (if n < a then n else a) = min a n := by
  rcases min_cases a n with ⟨h1, h2⟩ | ⟨h1, h2⟩ <;> rw [h1] <;> split <;> omega

/-- Integer ceiling division by `msPerDay` is exact on whole-day multiples. -/
theorem ceilDiv_mul_self (n : Int) : ceilDiv (n * msPerDay) msPerDay = n := by
  unfold ceilDiv
  rw [Int.fdiv_eq_ediv _ (le_of_lt msPerDay_pos), msPerDay_eq]
  omega

/-- The source's `daysBetween` on two whole-day timestamps is the spec's
`inclusiveDayCount` of the day numbers. -/
theorem daysBetweenTs_day (a b : Int) :
    daysBetweenTs (a * msPerDay) (b * msPerDay) = inclusiveDayCount a b := by
  unfold daysBetweenTs inclusiveDayCount
  have h1 : b * msPerDay - a * msPerDay = (b - a) * msPerDay := by ring
  have h2 : (((b - a) * msPerDay).natAbs : Int)
      = ((b - a).natAbs : Int) * msPerDay := by
    rw [Int.natAbs_mul]
    push_cast
    rw [abs_of_nonneg (le_of_lt msPerDay_pos)]
  rw [h1, h2, ceilDiv_mul_self]

/-- `daysBetween` on calendar dates counts whole days inclusively. -/
theorem daysBetween_eq (a b : CalDate) :
    daysBetween a b = inclusiveDayCount (daysFromCivil a) (daysFromCivil b) := by
  unfold daysBetween dateToTs
  exact daysBetweenTs_day _ _

/-- Truncating the timestamp of a calendar date recovers its day number. -/
theorem tsToDay_dateToTs (d : CalDate) : tsToDay (dateToTs d) = daysFromCivil d := by
  unfold tsToDay dateToTs
  exact Int.mul_fdiv_cancel _ (ne_of_gt msPerDay_pos)

theorem inclusiveDayCount_ge_one (a b : Int) : 1 ≤ inclusiveDayCount a b := by
  unfold inclusiveDayCount; omega

theorem inclusiveDayCount_comm (a b : Int) :
    inclusiveDayCount a b = inclusiveDayCount b a := by
  unfold inclusiveDayCount; omega

theorem longestTripSpec_nonneg (periodStart : Int) (l : List Trip) :
    0 ≤ longestTripSpec periodStart l := by
  unfold longestTripSpec
  induction l with
  | nil => simp
  | cons t l ih =>
      simp only [List.map_cons, List.foldr_cons]
      exact le_trans ih (le_max_right _ _)

/-- One loop iteration, characterised field by field through the spec-side
contribution functions. -/
theorem processTrip_eq (now periodStart today : Int) (st : LoopState) (t : Trip) :
    processTrip now periodStart today st t =
      { totalDaysOutside :=
          st.totalDaysOutside + totalContribution now periodStart today t
        plannedDaysOutside :=
          st.plannedDaysOutside + plannedContribution periodStart today t
        longestTrip :=
          if periodStart ≤ dateToTs t.returnDate then
            max st.longestTrip (daysBetween t.departureDate t.returnDate)
          else st.longestTrip
        pastTripCount := st.pastTripCount +
          (if periodStart ≤ dateToTs t.returnDate ∧
              daysFromCivil t.departureDate ≤ today then 1 else 0)
        plannedTripCount := st.plannedTripCount +
          (if periodStart ≤ dateToTs t.returnDate ∧
              today < daysFromCivil t.departureDate then 1 else 0) } := by
  unfold processTrip totalContribution plannedContribution clippedContribution
  dsimp only
  by_cases hskip : dateToTs t.returnDate < periodStart
  · have h1 : ¬ periodStart ≤ dateToTs t.returnDate := not_le.mpr hskip
    rw [if_pos hskip]
    simp [h1]
  · have h1 : periodStart ≤ dateToTs t.returnDate := not_lt.mp hskip
    rw [if_neg hskip]
    by_cases hfut : today < daysFromCivil t.departureDate
    · have h2 : ¬ daysFromCivil t.departureDate ≤ today := not_le.mpr hfut
      rw [if_pos hfut]
      simp [h1, h2, hfut, ite_lt_eq_max]
    · have h2 : daysFromCivil t.departureDate ≤ today := not_lt.mp hfut
      rw [if_neg hfut, ite_lt_eq_max, ite_lt_eq_min]
      by_cases hg : max (dateToTs t.departureDate) periodStart ≤ now
      · rw [if_pos hg]
        simp [h1, h2, hfut, hg, daysBetweenTs_day, ite_lt_eq_max]
      · rw [if_neg hg]
        simp [h1, h2, hfut, hg, ite_lt_eq_max]

theorem processTrip_total (now periodStart today : Int) (st : LoopState) (t : Trip) :
    (processTrip now periodStart today st t).totalDaysOutside
      = st.totalDaysOutside + totalContribution now periodStart today t := by
  rw [processTrip_eq]

theorem processTrip_planned (now periodStart today : Int) (st : LoopState) (t : Trip) :
    (processTrip now periodStart today st t).plannedDaysOutside
      = st.plannedDaysOutside + plannedContribution periodStart today t := by
  rw [processTrip_eq]

theorem processTrip_longest (now periodStart today : Int) (st : LoopState) (t : Trip) :
    (processTrip now periodStart today st t).longestTrip
      = if periodStart ≤ dateToTs t.returnDate then
          max st.longestTrip (daysBetween t.departureDate t.returnDate)
        else st.longestTrip := by
  rw [processTrip_eq]

theorem processTrip_pastCount (now periodStart today : Int) (st : LoopState) (t : Trip) :
    (processTrip now periodStart today st t).pastTripCount
      = st.pastTripCount +
          (if periodStart ≤ dateToTs t.returnDate ∧
              daysFromCivil t.departureDate ≤ today then 1 else 0) := by
  rw [processTrip_eq]

theorem processTrip_plannedCount (now periodStart today : Int) (st : LoopState) (t : Trip) :
    (processTrip now periodStart today st t).plannedTripCount
      = st.plannedTripCount +
          (if periodStart ≤ dateToTs t.returnDate ∧
              today < daysFromCivil t.departureDate then 1 else 0) := by
  rw [processTrip_eq]

theorem totalDaysSpec_cons (now periodStart today : Int) (t : Trip) (l : List Trip) :
    totalDaysSpec now periodStart today (t :: l)
      = totalContribution now periodStart today t
        + totalDaysSpec now periodStart today l := by
  simp [totalDaysSpec]

theorem plannedDaysSpec_cons (periodStart today : Int) (t : Trip) (l : List Trip) :
    plannedDaysSpec periodStart today (t :: l)
      = plannedContribution periodStart today t + plannedDaysSpec periodStart today l := by
  simp [plannedDaysSpec]

theorem longestTripSpec_cons (periodStart : Int) (t : Trip) (l : List Trip) :
    longestTripSpec periodStart (t :: l)
      = max (if periodStart ≤ dateToTs t.returnDate then
               daysBetween t.departureDate t.returnDate
             else 0)
          (longestTripSpec periodStart l) := by
  simp [longestTripSpec]

theorem pastCountSpec_cons (periodStart today : Int) (t : Trip) (l : List Trip) :
    pastCountSpec periodStart today (t :: l)
      = (if periodStart ≤ dateToTs t.returnDate ∧
            daysFromCivil t.departureDate ≤ today then 1 else 0)
        + pastCountSpec periodStart today l := by
  unfold pastCountSpec
  rw [List.countP_cons]
  by_cases hc : periodStart ≤ dateToTs t.returnDate ∧
      daysFromCivil t.departureDate ≤ today
  · simp [hc]
    omega
  · simp [hc]

theorem plannedCountSpec_cons (periodStart today : Int) (t : Trip) (l : List Trip) :
    plannedCountSpec periodStart today (t :: l)
      = (if periodStart ≤ dateToTs t.returnDate ∧
            today < daysFromCivil t.departureDate then 1 else 0)
        + plannedCountSpec periodStart today l := by
  unfold plannedCountSpec
  rw [List.countP_cons]
  by_cases hc : periodStart ≤ dateToTs t.returnDate ∧
      today < daysFromCivil t.departureDate
  · simp [hc]
    omega
  · simp [hc]

/-- The trip loop, run from any initial accumulator state with a nonnegative
`longestTrip`, computes the spec-side closed forms. -/
theorem foldl_processTrip (now periodStart today : Int) (l : List Trip) :
    ∀ st : LoopState, 0 ≤ st.longestTrip →
      (l.foldl (processTrip now periodStart today) st).totalDaysOutside
          = st.totalDaysOutside + totalDaysSpec now periodStart today l
      ∧ (l.foldl (processTrip now periodStart today) st).plannedDaysOutside
          = st.plannedDaysOutside + plannedDaysSpec periodStart today l
      ∧ (l.foldl (processTrip now periodStart today) st).longestTrip
          = max st.longestTrip (longestTripSpec periodStart l)
      ∧ (l.foldl (processTrip now periodStart today) st).pastTripCount
          = st.pastTripCount + pastCountSpec periodStart today l
      ∧ (l.foldl (processTrip now periodStart today) st).plannedTripCount
          = st.plannedTripCount + plannedCountSpec periodStart today l := by
  induction l with
  | nil =>
      intro st hst
      refine ⟨by simp [totalDaysSpec], by simp [plannedDaysSpec], ?_,
        by simp [pastCountSpec], by simp [plannedCountSpec]⟩
      simp only [List.foldl_nil, longestTripSpec, List.map_nil, List.foldr_nil]
      omega
  | cons t l ih =>
      intro st hst
      have hst' : 0 ≤ (processTrip now periodStart today st t).longestTrip := by
        rw [processTrip_longest]
        split
        · exact le_trans hst (le_max_left _ _)
        · exact hst
      obtain ⟨i1, i2, i3, i4, i5⟩ := ih (processTrip now periodStart today st t) hst'
      simp only [List.foldl_cons]
      refine ⟨?_, ?_, ?_, ?_, ?_⟩
      · rw [i1, processTrip_total, totalDaysSpec_cons]
        ring
      · rw [i2, processTrip_planned, plannedDaysSpec_cons]
        ring
      · rw [i3, processTrip_longest, longestTripSpec_cons]
        by_cases hin : periodStart ≤ dateToTs t.returnDate
        · rw [if_pos hin, if_pos hin, max_assoc]
        · rw [if_neg hin, if_neg hin,
            max_eq_right (longestTripSpec_nonneg periodStart l)]
      · rw [i4, processTrip_pastCount, pastCountSpec_cons]
        ring
      · rw [i5, processTrip_plannedCount, plannedCountSpec_cons]
        ring

/-- The loop-derived fields of `getStats` in spec-side closed form. -/
theorem getStats_loop_fields (now : Int) (gcd : Option CalDate) (l : List Trip) :
    (getStats now gcd l).totalDaysOutside
        = totalDaysSpec now (periodStartTs now gcd) (tsToDay now) l
    ∧ (getStats now gcd l).plannedDaysOutside
        = plannedDaysSpec (periodStartTs now gcd) (tsToDay now) l
    ∧ (getStats now gcd l).longestTrip
        = longestTripSpec (periodStartTs now gcd) l
    ∧ (getStats now gcd l).pastTripCount
        = pastCountSpec (periodStartTs now gcd) (tsToDay now) l
    ∧ (getStats now gcd l).plannedTripCount
        = plannedCountSpec (periodStartTs now gcd) (tsToDay now) l := by
  obtain ⟨i1, i2, i3, i4, i5⟩ :=
    foldl_processTrip now (periodStartTs now gcd) (tsToDay now) l
      ⟨0, 0, 0, 0, 0⟩ le_rfl
  unfold getStats
  dsimp only
  refine ⟨?_, ?_, ?_, ?_, ?_⟩
  · rw [i1]; exact zero_add _
  · rw [i2]; exact zero_add _
  · rw [i3]
    exact max_eq_right (longestTripSpec_nonneg _ _)
  · rw [i4]; exact zero_add _
  · rw [i5]; exact zero_add _

/-- `tripCount` is the length of the input list. -/
theorem getStats_tripCount (now : Int) (gcd : Option CalDate) (l : List Trip) :
    (getStats now gcd l).tripCount = l.length := by
  unfold getStats
  dsimp only

/-- The `periodStart` field is the calendar day of the period-start timestamp. -/
theorem getStats_periodStart (now : Int) (gcd : Option CalDate) (l : List Trip) :
    (getStats now gcd l).periodStart = tsToDay (periodStartTs now gcd) := by
  unfold getStats
  dsimp only

/-- `percentUsed` as the clamping formula over the final day total. -/
theorem getStats_percentUsed (now : Int) (gcd : Option CalDate) (l : List Trip) :
    (getStats now gcd l).percentUsed
      = min 100 (((getStats now gcd l).totalDaysOutside : ℚ) / 913 * 100) := by
  unfold getStats MAX_DAYS_ALLOWED
  dsimp only
  norm_num

/-- `projectedPercentUsed` as the clamping formula over the projected total. -/
theorem getStats_projectedPercentUsed (now : Int) (gcd : Option CalDate) (l : List Trip) :
    (getStats now gcd l).projectedPercentUsed
      = min 100 (((getStats now gcd l).projectedTotalDays : ℚ) / 913 * 100) := by
  unfold getStats MAX_DAYS_ALLOWED
  dsimp only
  norm_num

/-- `projectedTotalDays` is the sum of realised and planned days. -/
theorem getStats_projectedTotalDays (now : Int) (gcd : Option CalDate) (l : List Trip) :
    (getStats now gcd l).projectedTotalDays
      = (getStats now gcd l).totalDaysOutside + (getStats now gcd l).plannedDaysOutside := by
  unfold getStats
  dsimp only

/-- The two warning levels are `getWarningLevel` of the two percentages. -/
theorem getStats_warningLevels (now : Int) (gcd : Option CalDate) (l : List Trip) :
    (getStats now gcd l).warningLevel
        = getWarningLevel ((getStats now gcd l).percentUsed)
    ∧ (getStats now gcd l).projectedWarningLevel
        = getWarningLevel ((getStats now gcd l).projectedPercentUsed) := by
  unfold getStats
  dsimp only
  exact ⟨rfl, rfl⟩

/-- Integer ceiling division by `msPerDay` is the rational ceiling, i.e.
`Math.ceil(diffTime / 86400000)` on exact integers. -/
theorem ceilDiv_eq_ceil (n : Int) :
    ceilDiv n msPerDay = ⌈(n : ℚ) / (msPerDay : ℚ)⌉ := by
  have hfloor : ⌊(((-n : Int) : ℚ)) / ((86400000 : Nat) : ℚ)⌋
      = (-n) / ((86400000 : Nat) : Int) :=
    Rat.floor_intCast_div_natCast (-n) 86400000
  have hceil : ⌈(n : ℚ) / (msPerDay : ℚ)⌉ = -((-n) / (86400000 : Int)) := by
    have h1 : (n : ℚ) / (msPerDay : ℚ) = -(((-n : Int) : ℚ) / ((86400000 : Nat) : ℚ)) := by
      rw [msPerDay_eq]
      push_cast
      ring
    rw [h1, Int.ceil_neg, hfloor]
    push_cast
    ring
  rw [hceil]
  unfold ceilDiv
  rw [Int.fdiv_eq_ediv _ (le_of_lt msPerDay_pos), msPerDay_eq]
  omega

/-- Truncating a timestamp to its calendar day never moves it forward. -/
theorem tsToDay_mul_le (t : Int) : tsToDay t * msPerDay ≤ t := by
  unfold tsToDay
  have h := Int.fmod_add_fdiv t msPerDay
  have h2 := Int.fmod_nonneg' t msPerDay_pos
  nlinarith [h, h2]

theorem clippedContribution_nonneg (now periodStart : Int) (t : Trip) :
    0 ≤ clippedContribution now periodStart t := by
  unfold clippedContribution
  dsimp only
  split
  · have := inclusiveDayCount_ge_one
      (tsToDay (max (dateToTs t.departureDate) periodStart))
      (tsToDay (min (dateToTs t.returnDate) now))
    omega
  · exact le_rfl

theorem totalContribution_nonneg (now periodStart today : Int) (t : Trip) :
    0 ≤ totalContribution now periodStart today t := by
  unfold totalContribution
  split
  · exact clippedContribution_nonneg now periodStart t
  · exact le_rfl

theorem plannedContribution_nonneg (periodStart today : Int) (t : Trip) :
    0 ≤ plannedContribution periodStart today t := by
  unfold plannedContribution
  split
  · rw [daysBetween_eq]
    have := inclusiveDayCount_ge_one (daysFromCivil t.departureDate)
      (daysFromCivil t.returnDate)
    omega
  · exact le_rfl

theorem totalDaysSpec_nonneg (now periodStart today : Int) (l : List Trip) :
    0 ≤ totalDaysSpec now periodStart today l := by
  unfold totalDaysSpec
  refine List.sum_nonneg ?_
  intro x hx
  obtain ⟨t, _, rfl⟩ := List.mem_map.mp hx
  exact totalContribution_nonneg now periodStart today t

theorem plannedDaysSpec_nonneg (periodStart today : Int) (l : List Trip) :
    0 ≤ plannedDaysSpec periodStart today l := by
  unfold plannedDaysSpec
  refine List.sum_nonneg ?_
  intro x hx
  obtain ⟨t, _, rfl⟩ := List.mem_map.mp hx
  exact plannedContribution_nonneg periodStart today t

/-- When the period starts no later than `now`, each past/current trip in the
period clears the `effectiveStart ≤ now` guard and contributes at least one
day, so the day total dominates the past-trip count. -/
theorem pastCountSpec_le_totalDaysSpec (now periodStart today : Int)
    (hps : periodStart ≤ now) (htoday : today * msPerDay ≤ now) (l : List Trip) :
    pastCountSpec periodStart today l ≤ totalDaysSpec now periodStart today l := by
  induction l with
  | nil => simp [pastCountSpec, totalDaysSpec]
  | cons t l ih =>
      rw [pastCountSpec_cons, totalDaysSpec_cons]
      have hstep : (if periodStart ≤ dateToTs t.returnDate ∧
          daysFromCivil t.departureDate ≤ today then (1 : Int) else 0)
          ≤ totalContribution now periodStart today t := by
        by_cases hc : periodStart ≤ dateToTs t.returnDate ∧
            daysFromCivil t.departureDate ≤ today
        · rw [if_pos hc]
          unfold totalContribution
          rw [if_pos hc]
          unfold clippedContribution
          dsimp only
          have hdep : dateToTs t.departureDate ≤ now := by
            have h1 : daysFromCivil t.departureDate * msPerDay ≤ today * msPerDay :=
              mul_le_mul_of_nonneg_right hc.2 (le_of_lt msPerDay_pos)
            unfold dateToTs
            omega
          rw [if_pos (max_le hdep hps)]
          exact inclusiveDayCount_ge_one _ _
        · rw [if_neg hc]
          exact totalContribution_nonneg now periodStart today t
      omega

/-! ### Claims -/

/-- **C3**: with a green-card date, `periodStart` is that date and
`eligibilityDate` is the date plus 5 calendar years (true calendar
arithmetic — e.g. 2023-08-13 → 2028-08-13 is 1827 days, not 1825, because
two leap days intervene); with no green-card date, `periodStart` is
`now − 1825 days` in milliseconds (`FIVE_YEARS_MS = 1825 · msPerDay`,
not calendar-aware) and `eligibilityDate` is null. -/
theorem claim_C3 (now : Int) (g : CalDate) (l : List Trip) :
    (getStats now (some g) l).periodStart = daysFromCivil g
    ∧ (getStats now (some g) l).eligibilityDate = some (addYears 5 g)
    ∧ (getStats now none l).periodStart = tsToDay (now - 1825 * msPerDay)
    ∧ (getStats now none l).eligibilityDate = none
    ∧ FIVE_YEARS_MS = 1825 * msPerDay
    ∧ daysFromCivil (addYears 5 ⟨2023, 8, 13⟩) - daysFromCivil ⟨2023, 8, 13⟩ = 1827 := by
  have h5 : FIVE_YEARS_MS = 1825 * msPerDay := by norm_num [FIVE_YEARS_MS, msPerDay]
  refine ⟨?_, ?_, ?_, ?_, h5, by decide⟩
  · rw [getStats_periodStart]
    unfold periodStartTs
    exact tsToDay_dateToTs g
  · unfold getStats
    dsimp only
  · rw [getStats_periodStart]
    unfold periodStartTs
    rw [h5]
  · unfold getStats
    dsimp only

/-- **C5**: the source's `daysBetween` (the spec's `inclusiveDayCount`) is at
least 1, equals 1 on equal endpoints, and is symmetric in its arguments. -/
theorem claim_C5 (a b : CalDate) :
    1 ≤ daysBetween a b
    ∧ daysBetween a a = 1
    ∧ daysBetween a b = daysBetween b a := by
  rw [daysBetween_eq, daysBetween_eq, daysBetween_eq]
  refine ⟨inclusiveDayCount_ge_one _ _, ?_, inclusiveDayCount_comm _ _⟩
  unfold inclusiveDayCount
  omega

/-- **C6**: `getWarningLevel` is `danger` for percent ≥ 90, `caution` for
70 ≤ percent < 90, `safe` below 70; at the boundaries, 70 → caution,
90 → danger, 69.999 → safe; and `getStats` applies it separately to
`percentUsed` and `projectedPercentUsed`. -/
theorem claim_C6 :
    (∀ p : ℚ, 90 ≤ p → getWarningLevel p = .danger)
    ∧ (∀ p : ℚ, 70 ≤ p → p < 90 → getWarningLevel p = .caution)
    ∧ (∀ p : ℚ, p < 70 → getWarningLevel p = .safe)
    ∧ getWarningLevel 70 = .caution
    ∧ getWarningLevel 90 = .danger
    ∧ getWarningLevel (69999 / 1000) = .safe
    ∧ ∀ (now : Int) (gcd : Option CalDate) (l : List Trip),
        (getStats now gcd l).warningLevel
            = getWarningLevel ((getStats now gcd l).percentUsed)
        ∧ (getStats now gcd l).projectedWarningLevel
            = getWarningLevel ((getStats now gcd l).projectedPercentUsed) := by
  refine ⟨?_, ?_, ?_, ?_, ?_, ?_, fun now gcd l => getStats_warningLevels now gcd l⟩
  · intro p hp
    unfold getWarningLevel
    rw [if_pos hp]
  · intro p hp1 hp2
    unfold getWarningLevel
    rw [if_neg (not_le.mpr hp2), if_pos hp1]
  · intro p hp
    unfold getWarningLevel
    rw [if_neg (by linarith), if_neg (not_le.mpr hp)]
  · unfold getWarningLevel
    rw [if_neg (by norm_num), if_pos (by norm_num)]
  · unfold getWarningLevel
    rw [if_pos (by norm_num)]
  · unfold getWarningLevel
    rw [if_neg (by norm_num), if_neg (by norm_num)]

/-- **C9**: the stats computation is deterministic — identical `now`,
green-card date and trip list give identical `Stats` in every field.  (The
embedding is a pure function, mirroring the source, whose loop only reads
its inputs and writes local accumulators.) -/
theorem claim_C9 (now₁ now₂ : Int) (g₁ g₂ : Option CalDate) (l₁ l₂ : List Trip)
    (hn : now₁ = now₂) (hg : g₁ = g₂) (hl : l₁ = l₂) :
    getStats now₁ g₁ l₁ = getStats now₂ g₂ l₂ := by
  rw [hn, hg, hl]

/-- **C1**: a trip with return date ≥ periodStart and departure not strictly
after today adds to `totalDaysOutside` exactly the inclusive day count of the
trip clipped to `[periodStart, now]` (on calendar days), guarded by
`effectiveStart ≤ now`, while `longestTrip` is updated with the trip's full
unclipped inclusive day count. -/
theorem claim_C1 (now : Int) (gcd : Option CalDate) (t : Trip) (l : List Trip)
    (hret : periodStartTs now gcd ≤ dateToTs t.returnDate)
    (hdep : ¬ tsToDay now < daysFromCivil t.departureDate) :
    (getStats now gcd (t :: l)).totalDaysOutside
      = (if max (dateToTs t.departureDate) (periodStartTs now gcd) ≤ now then
           inclusiveDayCount
             (tsToDay (max (dateToTs t.departureDate) (periodStartTs now gcd)))
             (tsToDay (min (dateToTs t.returnDate) now))
         else 0)
        + (getStats now gcd l).totalDaysOutside
    ∧ (getStats now gcd (t :: l)).longestTrip
        = max (daysBetween t.departureDate t.returnDate)
            (getStats now gcd l).longestTrip := by
  obtain ⟨a1, _, a3, _, _⟩ := getStats_loop_fields now gcd (t :: l)
  obtain ⟨b1, _, b3, _, _⟩ := getStats_loop_fields now gcd l
  constructor
  · rw [a1, b1, totalDaysSpec_cons]
    congr 1
    unfold totalContribution
    rw [if_pos ⟨hret, not_lt.mp hdep⟩]
    unfold clippedContribution
    dsimp only
  · rw [a3, b3, longestTripSpec_cons, if_pos hret]

/-- **C2**: a trip with return date ≥ periodStart departing strictly after
today increments `plannedTripCount` and adds its full unclipped day count to
`plannedDaysOutside`, contributing nothing to `totalDaysOutside` or
`pastTripCount`; a trip departing exactly today is past/current, not
planned. -/
theorem claim_C2 (now : Int) (gcd : Option CalDate) (t : Trip) (l : List Trip) :
    (periodStartTs now gcd ≤ dateToTs t.returnDate →
      tsToDay now < daysFromCivil t.departureDate →
      (getStats now gcd (t :: l)).plannedTripCount
          = (getStats now gcd l).plannedTripCount + 1
      ∧ (getStats now gcd (t :: l)).plannedDaysOutside
          = daysBetween t.departureDate t.returnDate
            + (getStats now gcd l).plannedDaysOutside
      ∧ (getStats now gcd (t :: l)).totalDaysOutside
          = (getStats now gcd l).totalDaysOutside
      ∧ (getStats now gcd (t :: l)).pastTripCount
          = (getStats now gcd l).pastTripCount)
    ∧ (daysFromCivil t.departureDate = tsToDay now →
        periodStartTs now gcd ≤ dateToTs t.returnDate →
        (getStats now gcd (t :: l)).plannedTripCount
            = (getStats now gcd l).plannedTripCount
        ∧ (getStats now gcd (t :: l)).pastTripCount
            = (getStats now gcd l).pastTripCount + 1) := by
  obtain ⟨a1, a2, _, a4, a5⟩ := getStats_loop_fields now gcd (t :: l)
  obtain ⟨b1, b2, _, b4, b5⟩ := getStats_loop_fields now gcd l
  constructor
  · intro hret hfut
    refine ⟨?_, ?_, ?_, ?_⟩
    · rw [a5, b5, plannedCountSpec_cons, if_pos ⟨hret, hfut⟩]
      omega
    · rw [a2, b2, plannedDaysSpec_cons]
      have h0 : plannedContribution (periodStartTs now gcd) (tsToDay now) t
          = daysBetween t.departureDate t.returnDate := by
        unfold plannedContribution
        rw [if_pos ⟨hret, hfut⟩]
      rw [h0]
    · rw [a1, b1, totalDaysSpec_cons]
      have h0 : totalContribution now (periodStartTs now gcd) (tsToDay now) t = 0 := by
        unfold totalContribution
        rw [if_neg (fun hc => absurd hc.2 (not_le.mpr hfut))]
      rw [h0]
      omega
    · rw [a4, b4, pastCountSpec_cons,
        if_neg (fun hc => absurd hc.2 (not_le.mpr hfut))]
      omega
  · intro heq hret
    have hpast : daysFromCivil t.departureDate ≤ tsToDay now := le_of_eq heq
    constructor
    · rw [a5, b5, plannedCountSpec_cons,
        if_neg (fun hc => absurd hc.2 (not_lt.mpr hpast))]
      omega
    · rw [a4, b4, pastCountSpec_cons, if_pos ⟨hret, hpast⟩]
      omega

/-- **C4**: a trip whose return date is strictly before periodStart is
excluded from all five accumulators, yet `tripCount` is always the length of
the input list; and a trip whose return date equals periodStart exactly is
not excluded (here: a past/current such trip is still counted). -/
theorem claim_C4 (now : Int) (gcd : Option CalDate) (t : Trip) (l : List Trip) :
    (dateToTs t.returnDate < periodStartTs now gcd →
      (getStats now gcd (t :: l)).totalDaysOutside
          = (getStats now gcd l).totalDaysOutside
      ∧ (getStats now gcd (t :: l)).plannedDaysOutside
          = (getStats now gcd l).plannedDaysOutside
      ∧ (getStats now gcd (t :: l)).longestTrip
          = (getStats now gcd l).longestTrip
      ∧ (getStats now gcd (t :: l)).pastTripCount
          = (getStats now gcd l).pastTripCount
      ∧ (getStats now gcd (t :: l)).plannedTripCount
          = (getStats now gcd l).plannedTripCount)
    ∧ (getStats now gcd (t :: l)).tripCount = l.length + 1
    ∧ (getStats now gcd l).tripCount = l.length
    ∧ (dateToTs t.returnDate = periodStartTs now gcd →
        daysFromCivil t.departureDate ≤ tsToDay now →
        (getStats now gcd (t :: l)).pastTripCount
          = (getStats now gcd l).pastTripCount + 1) := by
  obtain ⟨a1, a2, a3, a4, a5⟩ := getStats_loop_fields now gcd (t :: l)
  obtain ⟨b1, b2, b3, b4, b5⟩ := getStats_loop_fields now gcd l
  refine ⟨?_, ?_, getStats_tripCount now gcd l, ?_⟩
  · intro hbefore
    have hn : ¬ periodStartTs now gcd ≤ dateToTs t.returnDate := not_le.mpr hbefore
    refine ⟨?_, ?_, ?_, ?_, ?_⟩
    · rw [a1, b1, totalDaysSpec_cons]
      have h0 : totalContribution now (periodStartTs now gcd) (tsToDay now) t = 0 := by
        unfold totalContribution
        rw [if_neg (fun hc => hn hc.1)]
      rw [h0, zero_add]
    · rw [a2, b2, plannedDaysSpec_cons]
      have h0 : plannedContribution (periodStartTs now gcd) (tsToDay now) t = 0 := by
        unfold plannedContribution
        rw [if_neg (fun hc => hn hc.1)]
      rw [h0, zero_add]
    · rw [a3, b3, longestTripSpec_cons, if_neg hn]
      exact max_eq_right (longestTripSpec_nonneg _ _)
    · rw [a4, b4, pastCountSpec_cons, if_neg (fun hc => hn hc.1), zero_add]
    · rw [a5, b5, plannedCountSpec_cons, if_neg (fun hc => hn hc.1), zero_add]
  · rw [getStats_tripCount]
    rfl
  · intro heq hpast
    rw [a4, b4, pastCountSpec_cons, if_pos ⟨le_of_eq heq.symm, hpast⟩]
    omega

theorem ite_neg_eq_max0 (d : Int) : (if d < 0 then 0 else d) = max 0 d := by
  rcases max_cases 0 d with ⟨h1, h2⟩ | ⟨h1, h2⟩ <;> rw [h1] <;> split <;> omega

/-- **C7**: with a green-card date, `daysUntilEligible` is the rational
ceiling of `(eligibilityDate − now)` in days (sub-day precision), floored at
0; with none it is null. -/
theorem claim_C7 (now : Int) (l : List Trip) :
    (∀ g : CalDate,
      (getStats now (some g) l).daysUntilEligible
        = some (max 0 ⌈((dateToTs (addYears 5 g) : ℚ) - (now : ℚ)) / (msPerDay : ℚ)⌉))
    ∧ (getStats now none l).daysUntilEligible = none := by
  constructor
  · intro g
    unfold getStats
    dsimp only
    rw [ite_neg_eq_max0]
    congr 2
    rw [ceilDiv_eq_ceil]
    congr 1
    push_cast
    ring
  · unfold getStats
    dsimp only

/-- **C8**: the clamped percentage formula lands in [0, 100] for any
nonnegative day count, and both percentage fields of `getStats` always lie
in [0, 100]. -/
theorem claim_C8 :
    (∀ d : Int, 0 ≤ d →
      0 ≤ min (100 : ℚ) ((d : ℚ) / 913 * 100)
      ∧ min (100 : ℚ) ((d : ℚ) / 913 * 100) ≤ 100)
    ∧ ∀ (now : Int) (gcd : Option CalDate) (l : List Trip),
        0 ≤ (getStats now gcd l).percentUsed
        ∧ (getStats now gcd l).percentUsed ≤ 100
        ∧ 0 ≤ (getStats now gcd l).projectedPercentUsed
        ∧ (getStats now gcd l).projectedPercentUsed ≤ 100 := by
  have key : ∀ d : Int, 0 ≤ d →
      0 ≤ min (100 : ℚ) ((d : ℚ) / 913 * 100)
      ∧ min (100 : ℚ) ((d : ℚ) / 913 * 100) ≤ 100 := by
    intro d hd
    have hd' : (0 : ℚ) ≤ (d : ℚ) := by exact_mod_cast hd
    constructor
    · refine le_min (by norm_num) (by positivity)
    · exact min_le_left _ _
  refine ⟨key, ?_⟩
  intro now gcd l
  obtain ⟨h1, h2, _, _, _⟩ := getStats_loop_fields now gcd l
  have ht : 0 ≤ (getStats now gcd l).totalDaysOutside := by
    rw [h1]
    exact totalDaysSpec_nonneg _ _ _ _
  have hp : 0 ≤ (getStats now gcd l).projectedTotalDays := by
    rw [getStats_projectedTotalDays, h1, h2]
    have := plannedDaysSpec_nonneg (periodStartTs now gcd) (tsToDay now) l
    have := totalDaysSpec_nonneg now (periodStartTs now gcd) (tsToDay now) l
    omega
  have k1 := key _ ht
  have k2 := key _ hp
  rw [getStats_percentUsed, getStats_projectedPercentUsed]
  exact ⟨k1.1, k1.2, k2.1, k2.2⟩

/-- **C10**: whenever `periodStart ≤ now`, every past/current trip counted
contributes at least one day, so `totalDaysOutside ≥ pastTripCount`. -/
theorem claim_C10 (now : Int) (gcd : Option CalDate) (l : List Trip)
    (h : periodStartTs now gcd ≤ now) :
    (getStats now gcd l).pastTripCount ≤ (getStats now gcd l).totalDaysOutside := by
  obtain ⟨h1, _, _, h4, _⟩ := getStats_loop_fields now gcd l
  rw [h1, h4]
  exact pastCountSpec_le_totalDaysSpec now _ _ h (tsToDay_mul_le now) l

/-- Witness for C1: green-card date 2023-08-13, now 2025-01-01, one trip
2023-08-01 → 2023-08-20 spanning the period start: clipped to 8 days,
longest trip the full 20. -/
theorem claim_C1_witness :
    (getStats (dateToTs ⟨2025, 1, 1⟩) (some ⟨2023, 8, 13⟩)
        [⟨⟨2023, 8, 1⟩, ⟨2023, 8, 20⟩⟩]).totalDaysOutside = 8
    ∧ (getStats (dateToTs ⟨2025, 1, 1⟩) (some ⟨2023, 8, 13⟩)
        [⟨⟨2023, 8, 1⟩, ⟨2023, 8, 20⟩⟩]).longestTrip = 20 := by
  have h := claim_C1 (dateToTs ⟨2025, 1, 1⟩) (some ⟨2023, 8, 13⟩)
    ⟨⟨2023, 8, 1⟩, ⟨2023, 8, 20⟩⟩ [] (by decide) (by decide)
  exact ⟨h.1.trans (by decide), h.2.trans (by decide)⟩

/-- Witness for C2: a trip departing 2025-02-01 (after today 2025-01-01) is
planned only; one departing exactly today is past/current. -/
theorem claim_C2_witness :
    (getStats (dateToTs ⟨2025, 1, 1⟩) (some ⟨2023, 8, 13⟩)
        [⟨⟨2025, 2, 1⟩, ⟨2025, 2, 10⟩⟩]).plannedTripCount = 1
    ∧ (getStats (dateToTs ⟨2025, 1, 1⟩) (some ⟨2023, 8, 13⟩)
        [⟨⟨2025, 2, 1⟩, ⟨2025, 2, 10⟩⟩]).plannedDaysOutside = 10
    ∧ (getStats (dateToTs ⟨2025, 1, 1⟩) (some ⟨2023, 8, 13⟩)
        [⟨⟨2025, 2, 1⟩, ⟨2025, 2, 10⟩⟩]).totalDaysOutside = 0
    ∧ (getStats (dateToTs ⟨2025, 1, 1⟩) (some ⟨2023, 8, 13⟩)
        [⟨⟨2025, 2, 1⟩, ⟨2025, 2, 10⟩⟩]).pastTripCount = 0
    ∧ (getStats (dateToTs ⟨2025, 1, 1⟩) (some ⟨2023, 8, 13⟩)
        [⟨⟨2025, 1, 1⟩, ⟨2025, 1, 5⟩⟩]).plannedTripCount = 0
    ∧ (getStats (dateToTs ⟨2025, 1, 1⟩) (some ⟨2023, 8, 13⟩)
        [⟨⟨2025, 1, 1⟩, ⟨2025, 1, 5⟩⟩]).pastTripCount = 1 := by
  have h1 := (claim_C2 (dateToTs ⟨2025, 1, 1⟩) (some ⟨2023, 8, 13⟩)
    ⟨⟨2025, 2, 1⟩, ⟨2025, 2, 10⟩⟩ []).1 (by decide) (by decide)
  have h2 := (claim_C2 (dateToTs ⟨2025, 1, 1⟩) (some ⟨2023, 8, 13⟩)
    ⟨⟨2025, 1, 1⟩, ⟨2025, 1, 5⟩⟩ []).2 (by decide) (by decide)
  exact ⟨h1.1.trans (by decide), h1.2.1.trans (by decide),
    h1.2.2.1.trans (by decide), h1.2.2.2.trans (by decide),
    h2.1.trans (by decide), h2.2.trans (by decide)⟩

/-- Witness for C4: a 2020 trip ends before the 2023-08-13 period start and
is excluded (counts stay 0, `tripCount` still 1); a trip returning exactly on
the period start is counted. -/
theorem claim_C4_witness :
    (getStats (dateToTs ⟨2025, 1, 1⟩) (some ⟨2023, 8, 13⟩)
        [⟨⟨2020, 1, 1⟩, ⟨2020, 1, 5⟩⟩]).totalDaysOutside = 0
    ∧ (getStats (dateToTs ⟨2025, 1, 1⟩) (some ⟨2023, 8, 13⟩)
        [⟨⟨2020, 1, 1⟩, ⟨2020, 1, 5⟩⟩]).pastTripCount = 0
    ∧ (getStats (dateToTs ⟨2025, 1, 1⟩) (some ⟨2023, 8, 13⟩)
        [⟨⟨2020, 1, 1⟩, ⟨2020, 1, 5⟩⟩]).tripCount = 1
    ∧ (getStats (dateToTs ⟨2025, 1, 1⟩) (some ⟨2023, 8, 13⟩)
        [⟨⟨2023, 8, 10⟩, ⟨2023, 8, 13⟩⟩]).pastTripCount = 1 := by
  have h := claim_C4 (dateToTs ⟨2025, 1, 1⟩) (some ⟨2023, 8, 13⟩)
    ⟨⟨2020, 1, 1⟩, ⟨2020, 1, 5⟩⟩ []
  have h4 := claim_C4 (dateToTs ⟨2025, 1, 1⟩) (some ⟨2023, 8, 13⟩)
    ⟨⟨2023, 8, 10⟩, ⟨2023, 8, 13⟩⟩ []
  have ha := h.1 (by decide)
  exact ⟨ha.1.trans (by decide), ha.2.2.2.1.trans (by decide),
    h.2.1.trans (by decide), (h4.2.2.2 (by decide) (by decide)).trans (by decide)⟩

/-- Witness for C6: the three threshold clauses applied at 95, 75 and 50. -/
theorem claim_C6_witness :
    getWarningLevel 95 = .danger
    ∧ getWarningLevel 75 = .caution
    ∧ getWarningLevel 50 = .safe :=
  ⟨claim_C6.1 95 (by norm_num),
   claim_C6.2.1 75 (by norm_num) (by norm_num),
   claim_C6.2.2.1 50 (by norm_num)⟩

/-- Witness for C8: the clamping formula at day count 5. -/
theorem claim_C8_witness :
    0 ≤ min (100 : ℚ) (((5 : Int) : ℚ) / 913 * 100)
    ∧ min (100 : ℚ) (((5 : Int) : ℚ) / 913 * 100) ≤ 100 :=
  claim_C8.1 5 (by decide)

/-- Witness for C9: determinism at a concrete input. -/
theorem claim_C9_witness :
    getStats (dateToTs ⟨2025, 1, 1⟩) (some ⟨2023, 8, 13⟩)
        [⟨⟨2024, 1, 20⟩, ⟨2024, 2, 5⟩⟩]
      = getStats (dateToTs ⟨2025, 1, 1⟩) (some ⟨2023, 8, 13⟩)
        [⟨⟨2024, 1, 20⟩, ⟨2024, 2, 5⟩⟩] :=
  claim_C9 _ _ _ _ _ _ rfl rfl rfl

/-- Witness for C10: with the rolling window (period start 1825 days before
now), the past-trip count never exceeds the day total. -/
theorem claim_C10_witness :
    (getStats (dateToTs ⟨2025, 1, 1⟩) none
        [⟨⟨2024, 1, 20⟩, ⟨2024, 2, 5⟩⟩]).pastTripCount
      ≤ (getStats (dateToTs ⟨2025, 1, 1⟩) none
        [⟨⟨2024, 1, 20⟩, ⟨2024, 2, 5⟩⟩]).totalDaysOutside :=
  claim_C10 (dateToTs ⟨2025, 1, 1⟩) none
    [⟨⟨2024, 1, 20⟩, ⟨2024, 2, 5⟩⟩] (by decide)

end TravelTracker
